import Mathlib

/-!
Verification of the analyze-and-reply pipeline of the `sitex/abc4` bot
repository, a collection of near-duplicate Telegram webhook handlers that
forward images to the Gemini vision API and relay the description.

The embedding models, per source file:
  * the Format Detector `checkImageType` (src/unnamed/part_001 l.35-44,
    part_003 l.49-58 and l.272-281 — identical copies);
  * the Response Sanitizers `sanitizeMarkdown` (part_001 l.26-33),
    `markdownToTelegramHTML` (part_003 l.25-47) and
    `sanitizeTelegramFormatting` (part_003 l.256-270);
  * the Analysis Cache (a JS `Map` used only through `has`/`get`/`set`);
  * the photo pipeline `analyzeImage`/`handlePhoto` of part_001, the
    `analyzeImage` of the second variant in part_003, and the
    `analyzeImage`/`handlePhoto` of part_000;
  * the webhook `handler` of src/bot.mjs (l.298-340).

Modelling conventions.  JS strings are modelled as Lean `String`s (lists
of code points; the sources never branch on UTF-16 surrogate pairs).
Byte buffers are `List (Fin 256)`.  External I/O (Telegram file download,
the Gemini call, the outbound send) is passed in as explicit data, so a
handler becomes a pure function from its inputs and the outcomes of its
I/O calls to the record of messages it sent, the responses it wrote and
the cache it left behind.  JS regular-expression replacement with the /g
flag is modelled by left-to-right scanners whose lazy-quantifier
behaviour is spelled out at each definition.  Real time (the 25 s
`setTimeout` of bot.mjs) is outside the sequential model, as §5 of the
specification itself notes.

The file is laid out as the definitions of the embedding first, followed
by all theorems (supporting lemmas, then the claim theorems).
-/

namespace Abc4

/-! ### Byte buffers and the Format Detector -/

/-- A byte, as stored in a Node `Buffer`. -/
abbrev Byte := Fin 256

/-- A downloaded file, `Buffer.from(imageResponse.data)`. -/
abbrev ByteBuf := List Byte

/-- `MAX_FILE_SIZE = 4 * 1024 * 1024` (part_000/001/003). -/
def MAX_FILE_SIZE : Nat := 4 * 1024 * 1024

/-- One lowercase hex digit, as produced by Node `Buffer.toString('hex')`. -/
def hexDigit (n : Nat) : Char :=
  if n < 10 then Char.ofNat (48 + n) else Char.ofNat (87 + n)

/-- The two hex digits of one byte. -/
def byteToHexChars (b : Byte) : List Char :=
  [hexDigit (b.val / 16), hexDigit (b.val % 16)]

/-- `imageBuffer.toString('hex', 0, 4)`: the hex rendering of the first
four bytes (fewer if the buffer is shorter — Node clamps the range). -/
def hexSignature (buf : ByteBuf) : List Char :=
  (buf.take 4).flatMap byteToHexChars

/-- `checkImageType` (part_001 l.35-44; identical in part_003 l.49-58 and
l.272-281): look the 8-hex-digit signature up in the fixed table, with
`'unknown'` as the default of the `||` fallback. -/
def checkImageType (buf : ByteBuf) : String :=
  let signature := String.mk (hexSignature buf)
  if signature = "ffd8ffe0" then "image/jpeg"
  else if signature = "ffd8ffe1" then "image/jpeg"
  else if signature = "89504e47" then "image/png"
  else if signature = "47494638" then "image/gif"
  else "unknown"

/-- The four byte prefixes of the signature table, at byte level. -/
def knownSigBytes : List ByteBuf :=
  [[0xff, 0xd8, 0xff, 0xe0], [0xff, 0xd8, 0xff, 0xe1],
   [0x89, 0x50, 0x4e, 0x47], [0x47, 0x49, 0x46, 0x38]]

/-- "The first four bytes match a known signature", stated on the bytes
themselves (the spec's phrasing). -/
def matchesKnownSignature (buf : ByteBuf) : Prop :=
  buf.take 4 ∈ knownSigBytes

instance (buf : ByteBuf) : Decidable (matchesKnownSignature buf) := by
  unfold matchesKnownSignature; infer_instance

/-! ### The Analysis Cache

`const analysisCache = new Map()` (part_001 l.24, part_003 l.23/l.254).
The sources use the map only through `has`, `get` and `set`, so it is
modelled as an association list where `set` prepends the new binding and
`get` reads the most recent one — observationally the same `has`/`get`
behaviour as a JS `Map`, whose `set` overwrites in place. -/

/-- The in-memory analysis cache: content-hash key to sanitized text. -/
abbrev Cache := List (String × String)

/-- `analysisCache` at process start: empty. -/
def emptyCache : Cache := []

/-- `analysisCache.get(k)` (also backing `has(k)` via `isSome`). -/
def cacheGet (cache : Cache) (k : String) : Option String :=
  (cache.find? (fun p => p.1 == k)).map (·.2)

/-- `analysisCache.set(k, v)`. -/
def cacheSet (cache : Cache) (k v : String) : Cache :=
  (k, v) :: cache

/-- A cache produced by a sequence of `set` calls starting from the empty
map (the only way the sources ever populate it). -/
def cacheOfPuts (puts : List (String × String)) : Cache :=
  puts.foldl (fun c p => cacheSet c p.1 p.2) emptyCache

/-! ### String helpers shared by the handler models -/

/-- Contiguous-sublist search: does `needle` occur inside `hay`? -/
def isSubListOf (needle hay : List Char) : Bool :=
  match hay with
  | [] => needle.isEmpty
  | c :: t => needle.isPrefixOf (c :: t) || isSubListOf needle t

/-- JS `String.prototype.includes(needle)`. -/
def includesStr (needle hay : String) : Bool :=
  isSubListOf needle.data hay.data

/-- The backtick character (avoiding a literal backtick in the source). -/
def backtickChar : Char := Char.ofNat 96

/-- The opening curly brace character. -/
def lbraceChar : Char := Char.ofNat 123

/-- The closing curly brace character. -/
def rbraceChar : Char := Char.ofNat 125

/-- Replace every occurrence of the character `c` by the string `rep`:
the effect of one `text.replace(/c/g, rep)` pass for a single-character
literal pattern. -/
def charReplace (c : Char) (rep : List Char) (l : List Char) : List Char :=
  l.flatMap (fun x => if x = c then rep else [x])

/-! ### `sanitizeMarkdown` (part_001 l.26-33)

`escapeChars.forEach(char => sanitized = sanitized.replace(new RegExp('\\'
+ char, 'g'), '\\' + char))`: one global single-character replace per
reserved character, in the array's order, each prefixing the character
with a backslash (the inserted backslash itself is never in the set, so
later passes do not disturb earlier ones). -/

/-- The `escapeChars` array of part_001 l.27, in source order. -/
def escapeChars : List Char :=
  ['_', '*', '[', ']', '(', ')', '~', backtickChar, '>', '#', '+', '-',
   '=', '|', lbraceChar, rbraceChar, '.', '!']

/-- The escaping loop of `sanitizeMarkdown`. -/
def escapeMarkdownAll (l : List Char) : List Char :=
  escapeChars.foldl (fun acc c => charReplace c ['\\', c] acc) l

/-- `sanitizeMarkdown` (part_001 l.26-33): escape, then truncate at 4000
characters to a 3997-character prefix plus `'...'`. -/
def sanitizeMarkdown (text : String) : String :=
  let sanitized := escapeMarkdownAll text.data
  String.mk
    (if sanitized.length > 4000 then sanitized.take 3997 ++ ['.', '.', '.']
     else sanitized)

/-! ### Scanners for the JS regex replaces of part_003

The remaining sanitizers use `String.prototype.replace` with /g-flagged
regular expressions.  The patterns fall into three shapes, each modelled
by a left-to-right scanner with JS semantics (leftmost match first; on a
failed attempt the scan advances one position; `.` never matches a line
terminator, here `'\n'`):

  * `X(.*?)X` with a literal delimiter `X` (`\*\*`, `\*`, `__`, a
    backtick): at a position where the delimiter occurs, the lazy capture
    runs to the earliest later occurrence of the delimiter on the same
    line; if there is none, the attempt fails and the scan moves on.
  * `\[(.*?)\]\((.*?)\)`: at a `[`, the lazy first capture runs to the
    earliest `](` on the line, and the lazy second capture to the
    earliest `)` after it.  If that earliest candidate has no closing
    `)` before the line ends, every later candidate fails too (its
    search range is a suffix of the first one), so trying only the first
    `](` is equivalent to the engine's backtracking.
  * the anchored `^… (.*$)` header and `^\s*[-*] (.*)$` list patterns,
    handled per line (for the list pattern, `\s*` may also swallow whole
    blank lines, so it is scanned explicitly from each line start).
-/

/-- Search for the earliest occurrence of the closing delimiter
`d :: ds` on the current line: returns the lazy capture and the text
after the delimiter, or `none` at a newline or the end of input. -/
def scanClose (d : Char) (ds : List Char) : List Char → Option (List Char × List Char)
  | [] => none
  | c :: rest =>
    if (d :: ds).isPrefixOf (c :: rest) then
      some ([], (c :: rest).drop (d :: ds).length)
    else if c = '\n' then none
    else
      match scanClose d ds rest with
      | some (cap, r) => some (c :: cap, r)
      | none => none

/-- One global replace pass for a lazy pair pattern `X(.*?)X` with
delimiter `d :: ds`, emitting `pre ++ capture ++ post` for each match.
The fuel argument only bounds the recursion: every step either emits one
character and recurses on the tail, or emits a whole match and recurses
on the strictly shorter remainder `scanClose` returned, so fuel equal to
the input length (as `pairPass` supplies) is never exhausted. -/
def pairPassGo (d : Char) (ds pre post : List Char) : Nat → List Char → List Char
  | _, [] => []
  | 0, l => l
  | fuel + 1, c :: rest =>
    if (d :: ds).isPrefixOf (c :: rest) then
      match scanClose d ds ((c :: rest).drop (d :: ds).length) with
      | some (cap, r) => pre ++ cap ++ post ++ pairPassGo d ds pre post fuel r
      | none => c :: pairPassGo d ds pre post fuel rest
    else c :: pairPassGo d ds pre post fuel rest

/-- The replace pass for `X(.*?)X`, with enough fuel for its input. -/
def pairPass (d : Char) (ds pre post l : List Char) : List Char :=
  pairPassGo d ds pre post l.length l

/-- Search for the earliest `](` on the current line (the lazy first
capture of the link pattern). -/
def scanLinkMid : List Char → Option (List Char × List Char)
  | [] => none
  | c :: rest =>
    if c = ']' ∧ rest.head? = some '(' then some ([], rest.tail)
    else if c = '\n' then none
    else
      match scanLinkMid rest with
      | some (cap, r) => some (c :: cap, r)
      | none => none

/-- Search for the earliest `)` on the current line (the lazy second
capture of the link pattern). -/
def scanParenClose : List Char → Option (List Char × List Char)
  | [] => none
  | c :: rest =>
    if c = ')' then some ([], rest)
    else if c = '\n' then none
    else
      match scanParenClose rest with
      | some (cap, r) => some (c :: cap, r)
      | none => none

/-- The match attempt of `\[(.*?)\]\((.*?)\)` at a `[` whose tail is `l`:
both captures, and the text after the closing `)`. -/
def linkTry (l : List Char) : Option (List Char × List Char × List Char) :=
  match scanLinkMid l with
  | none => none
  | some (c1, m) =>
    match scanParenClose m with
    | none => none
    | some (c2, r) => some (c1, c2, r)

/-- One global pass of `\[(.*?)\]\((.*?)\)` → `<a href="$2">$1</a>`.
Fuel as in `pairPassGo`: the remainder returned by `linkTry` is strictly
shorter than the scanned text, so fuel equal to the input length is
never exhausted. -/
def linkPassGo : Nat → List Char → List Char
  | _, [] => []
  | 0, l => l
  | fuel + 1, c :: rest =>
    if c = '[' then
      match linkTry rest with
      | some (c1, c2, r) =>
          "<a href=\"".data ++ c2 ++ "\">".data ++ c1 ++ "</a>".data ++
            linkPassGo fuel r
      | none => c :: linkPassGo fuel rest
    else c :: linkPassGo fuel rest

/-- The link replace pass, with enough fuel for its input. -/
def linkPass (l : List Char) : List Char :=
  linkPassGo l.length l

/-- Split at every `'\n'`; a trailing newline yields a final empty line,
mirroring how the JS multiline anchors see the string. -/
def splitLines : List Char → List (List Char)
  | [] => [[]]
  | c :: rest =>
    if c = '\n' then [] :: splitLines rest
    else
      match splitLines rest with
      | [] => [[c]]
      | ln :: lns => (c :: ln) :: lns

/-- Rejoin what `splitLines` produced. -/
def joinLines : List (List Char) → List Char
  | [] => []
  | [ln] => ln
  | ln :: lns => ln ++ '\n' :: joinLines lns

/-- One header replacement on one line: `^p(.*$)` → `<b>$1</b>`. -/
def headerLine (p : List Char) (line : List Char) : List Char :=
  if p.isPrefixOf line then "<b>".data ++ line.drop p.length ++ "</b>".data
  else line

/-- One global pass of an anchored header pattern such as
`/^### (.*$)/gim` → `<b>$1</b>`, applied line by line. -/
def headerPass (p : List Char) (l : List Char) : List Char :=
  joinLines ((splitLines l).map (headerLine p))

/-- The characters JS `\s` matches, restricted to those the sources can
meet (space, tab, carriage return, newline). -/
def isJsWs (c : Char) : Bool :=
  c = ' ' || c = '\t' || c = '\n' || c = '\r'

/-- The match attempt of `^\s*[-*] (.*)$` at a line-start position:
greedily consume whitespace (which may span whole blank lines), require
a bullet character and a space, and capture the remainder of the
bullet's line.  Returns the capture and the text after it (which starts
with `'\n'` unless the input ended). -/
def tryBullet : List Char → Option (List Char × List Char)
  | [] => none
  | c :: rest =>
    if c = '-' ∨ c = '*' then
      if rest.head? = some ' ' then
        some (rest.tail.takeWhile (fun x => x ≠ '\n'),
          rest.tail.dropWhile (fun x => x ≠ '\n'))
      else none
    else if isJsWs c then tryBullet rest
    else none

/-- One global pass of `/^\s*[-*] (.*)$/gm` → `• $1`.  Matches can only
start at line starts, so after a failed attempt the scan resumes at the
next line; the remainder after a successful attempt is empty or begins
with the `'\n'` closing the bullet's line.  Fuel as in `pairPassGo`:
each step consumes at least one character of the input. -/
def listPassGo : Nat → List Char → List Char
  | _, [] => []
  | 0, l => l
  | fuel + 1, c :: rest =>
    match tryBullet (c :: rest) with
    | some (cap, r) =>
      '•' :: ' ' :: (cap ++
        (if r.head? = some '\n' then '\n' :: listPassGo fuel r.tail else []))
    | none =>
      (c :: rest).takeWhile (fun x => x ≠ '\n') ++
        (if ((c :: rest).dropWhile (fun x => x ≠ '\n')).head? = some '\n'
         then '\n' :: listPassGo fuel ((c :: rest).dropWhile (fun x => x ≠ '\n')).tail
         else [])

/-- The list replace pass, with enough fuel for its input. -/
def listPass (l : List Char) : List Char :=
  listPassGo l.length l

/-! ### `markdownToTelegramHTML` (part_003 l.25-47)

Header, bold, italic, list, link and inline-code replacements, in the
source's order, with no truncation. -/

/-- `markdownToTelegramHTML` (part_003 l.25-47). -/
def markdownToTelegramHTML (markdown : String) : String :=
  let h0 := markdown.data
  let h1 := headerPass "### ".data h0
  let h2 := headerPass "## ".data h1
  let h3 := headerPass "# ".data h2
  let h4 := pairPass '*' ['*'] "<b>".data "</b>".data h3
  let h5 := pairPass '*' [] "<i>".data "</i>".data h4
  let h6 := listPass h5
  let h7 := linkPass h6
  let h8 := pairPass backtickChar [] "<code>".data "</code>".data h7
  String.mk h8

/-! ### `sanitizeTelegramFormatting` (part_003 l.256-270)

HTML-metacharacter escaping (`&` first, so the entities it inserts are
not re-escaped by the later `<`/`>` passes), then bold, underline,
italic, inline-code and link rewrites in the source's order, then
truncation at 4096 to a 4093-character prefix plus `'...'`. -/

/-- The pre-truncation body of `sanitizeTelegramFormatting`. -/
def sanitizeTelegramBody (l : List Char) : List Char :=
  let t1 := charReplace '&' "&amp;".data l
  let t2 := charReplace '<' "&lt;".data t1
  let t3 := charReplace '>' "&gt;".data t2
  let t4 := pairPass '*' ['*'] "<b>".data "</b>".data t3
  let t5 := pairPass '_' ['_'] "<u>".data "</u>".data t4
  let t6 := pairPass '*' [] "<i>".data "</i>".data t5
  let t7 := pairPass backtickChar [] "<code>".data "</code>".data t6
  linkPass t7

/-- `sanitizeTelegramFormatting` (part_003 l.256-270). -/
def sanitizeTelegramFormatting (text : String) : String :=
  let t := sanitizeTelegramBody text.data
  String.mk
    (if t.length > 4096 then t.take 4093 ++ ['.', '.', '.'] else t)

/-! ### The part_001 photo pipeline (src/unnamed/part_001 l.46-129)

`analyzeImage` and `handlePhoto` are modelled after the download already
succeeded (`getFileLink`/`axios.get` are external transport).  The
content hash (`crypto.createHash('md5')`, library code) and the Gemini
call are passed in as functions; `VisionOutcome` distinguishes a
successful `generateContent` with a text, a result with a missing
`response` envelope, and a thrown error.  `cacheReads` counts
`analysisCache.has` lookups and `visionCalls` counts `generateContent`
invocations; outbound sends are modelled as succeeding (the claims about
this variant do not turn on delivery failures). -/

/-- The outcome of `model.generateContent(...)` for a given buffer. -/
inductive VisionOutcome where
  | ok (text : String)
  | noResponse
  | thrown (msg : String)

/-- Result of one `analyzeImage` run: the returned analysis or the thrown
error message, the cache left behind, and the I/O counters. -/
structure AnalyzeOut where
  result : Except String String
  cache : Cache
  cacheReads : Nat
  visionCalls : Nat

/-- Result of one `handlePhoto` run: the texts passed to
`bot.sendMessage` in order, the cache left behind, and the counters. -/
structure PhotoOut where
  messages : List String
  cache : Cache
  cacheReads : Nat
  visionCalls : Nat
  deriving Repr, DecidableEq

namespace Part001

/-- `analyzeImage` (part_001 l.46-94): cache lookup by content hash; on a
miss call Gemini, require a `response` envelope, sanitize, store, return;
any error is rethrown wrapped in the fixed Russian prefix. -/
def analyzeImage (hash : ByteBuf → String) (vision : ByteBuf → VisionOutcome)
    (cache : Cache) (imageBuffer : ByteBuf) : AnalyzeOut :=
  let imageHash := hash imageBuffer
  match cacheGet cache imageHash with
  | some cached => ⟨.ok cached, cache, 1, 0⟩
  | none =>
    match vision imageBuffer with
    | .thrown m =>
        ⟨.error ("Не удалось проанализировать изображение: " ++ m), cache, 1, 1⟩
    | .noResponse =>
        ⟨.error ("Не удалось проанализировать изображение: " ++
          "Нет ответа от API Gemini"), cache, 1, 1⟩
    | .ok t =>
        let analysis := sanitizeMarkdown t
        ⟨.ok analysis, cacheSet cache imageHash analysis, 1, 1⟩

/-- The size error thrown at part_001 l.106. -/
def oversizedError (n : Nat) : String :=
  "Размер изображения (" ++ toString n ++
    " байт) превышает максимально допустимый размер"

/-- The format error thrown at part_001 l.111. -/
def unsupportedFormatError : String :=
  "Неподдерживаемый формат изображения. Пожалуйста, отправьте изображение в формате JPEG, PNG или GIF."

/-- The "processing" notice sent at part_001 l.114. -/
def processingNotice : String :=
  "Я анализирую ваше изображение. Это может занять некоторое время..."

/-- The catch block of `handlePhoto` (part_001 l.117-127): classify the
error text by substring and build the user-facing reply. -/
def photoFailureReply (msg : String) : String :=
  let base := "Извините, но я не смог проанализировать это изображение. "
  if includesStr "максимально допустимый размер" msg then
    base ++ "Изображение слишком большое. Пожалуйста, попробуйте отправить изображение меньшего размера (до 4МБ)."
  else if includesStr "Неподдерживаемый формат изображения" msg then
    base ++ msg
  else
    base ++ "Произошла непредвиденная ошибка. Пожалуйста, попробуйте еще раз позже или с другим изображением."

/-- The user reply produced for an oversized input (size branch of the
catch block). -/
def oversizedUserReply : String :=
  "Извините, но я не смог проанализировать это изображение. " ++
    "Изображение слишком большое. Пожалуйста, попробуйте отправить изображение меньшего размера (до 4МБ)."

/-- The user reply produced for an unknown-format input (format branch of
the catch block). -/
def unsupportedFormatUserReply : String :=
  "Извините, но я не смог проанализировать это изображение. " ++
    unsupportedFormatError

/-- `handlePhoto` (part_001 l.96-129), after the download delivered
`imageBuffer`: size ceiling check, magic-byte check, "processing" notice,
`analyzeImage`, final send of the analysis (or of the classified failure
reply from the catch block). -/
def handlePhoto (hash : ByteBuf → String) (vision : ByteBuf → VisionOutcome)
    (cache : Cache) (imageBuffer : ByteBuf) : PhotoOut :=
  if imageBuffer.length > MAX_FILE_SIZE then
    ⟨[photoFailureReply (oversizedError imageBuffer.length)], cache, 0, 0⟩
  else if checkImageType imageBuffer = "unknown" then
    ⟨[photoFailureReply unsupportedFormatError], cache, 0, 0⟩
  else
    let r := analyzeImage hash vision cache imageBuffer
    match r.result with
    | .ok analysis =>
        ⟨[processingNotice, analysis], r.cache, r.cacheReads, r.visionCalls⟩
    | .error e =>
        ⟨[processingNotice, photoFailureReply e], r.cache, r.cacheReads,
          r.visionCalls⟩

end Part001

namespace Part003B

/-- `analyzeImage` of the second variant in part_003 (l.283-348).
After the cache check, the source builds the `getGenerativeModel`
argument whose `safetySettings` reference `HarmCategory` and
`HarmBlockThreshold` (l.301-314) — names this variant's module never
imports or defines (its imports, part_003 l.232-235, are
node-telegram-bot-api, `GoogleGenerativeAI`, axios and crypto).
Evaluating that object literal therefore throws
`ReferenceError: HarmCategory is not defined` inside the try on every
cache miss, before `generateContent` or the
`sanitizeTelegramFormatting`/`analysisCache.set` lines below it can
run, and the catch block (l.344-347) rethrows it wrapped in the fixed
prefix.  Only the cache-hit path returns normally — and since the
`set` on l.342 is unreachable, nothing in this variant ever populates
the cache.  The model therefore takes no vision oracle: the call is
unreachable. -/
def analyzeImage (hash : ByteBuf → String) (cache : Cache)
    (imageBuffer : ByteBuf) : AnalyzeOut :=
  let imageHash := hash imageBuffer
  match cacheGet cache imageHash with
  | some cached => ⟨.ok cached, cache, 1, 0⟩
  | none =>
      ⟨.error ("Не удалось проанализировать изображение: " ++
        "HarmCategory is not defined"), cache, 1, 0⟩

end Part003B

/-! ### The webhook handler of src/bot.mjs (l.298-340)

The handler dispatches on the parsed body's shape, awaits exactly one
inner handler, and answers 200/400/500; its catch block turns any
escaped exception into a 500 with a JSON error body.  The inner
handlers are passed in as their observable behaviour for this update
(the sends they performed and whether they threw), since their own
bodies live behind network I/O.  The 25-second `setTimeout`/504 path is
real time, outside this sequential model (§5 of the specification
records it as a race, not a designed behaviour). -/

/-- The observable behaviour of one inner handler invocation: the texts
it sent before returning or throwing, and the thrown error message if
it threw (bot.mjs `handlePhoto` catches its own errors, but its final
`bot.sendMessage` of the failure reply can itself throw and escape). -/
structure Act where
  sent : List String
  thrown : Option String

/-- A Telegram message as the handler's shape checks see it: the
`photo` array and `document` object are truthy whenever present (an
empty array is truthy in JS), while a present-but-empty `text` string
is falsy. -/
structure TgMessage where
  photo : Option Unit
  document : Option Unit
  text : Option String
  chatId : Int

/-- The parsed webhook request body: `body.message` is checked for
truthiness before any field of it is read. -/
structure ReqBody where
  message : Option TgMessage

/-- A response body: `res.send(text)`, or the catch block's
`res.json(...)` carrying `error.message`. -/
inductive RespBody where
  | text (s : String)
  | jsonError (message : String)
  deriving Repr, DecidableEq

/-- One `res.status(...).send(...)`/`.json(...)` call. -/
structure HttpResp where
  status : Nat
  body : RespBody
  deriving Repr, DecidableEq

namespace BotMjs

/-- The reply of the text branch (bot.mjs l.321). -/
def textPrompt : String :=
  "I received your message. Please send me an image to analyze."

/-- JS truthiness of `body.message.text`: present and non-empty. -/
def textTruthy (m : TgMessage) : Bool :=
  match m.text with
  | some t => t != ""
  | none => false

/-- `handler` (bot.mjs l.298-340) as the sequential control flow of one
invocation.  `photoAct`/`docAct` give the behaviour of
`handlePhoto`/`handleDocument` on this update, `sendTextErr` the
outcome of the text branch's `bot.sendMessage` (`none` = delivered).
Returns the `res` calls made, in order, and the outbound sends. -/
def handler (photoAct docAct : TgMessage → Act) (sendTextErr : Option String)
    (body : ReqBody) : List HttpResp × List String :=
  match body.message with
  | none => ([⟨400, .text "Bad Request: Unknown message type"⟩], [])
  | some m =>
    if m.photo.isSome then
      let a := photoAct m
      match a.thrown with
      | none => ([⟨200, .text "OK"⟩], a.sent)
      | some e => ([⟨500, .jsonError e⟩], a.sent)
    else if m.document.isSome then
      let a := docAct m
      match a.thrown with
      | none => ([⟨200, .text "OK"⟩], a.sent)
      | some e => ([⟨500, .jsonError e⟩], a.sent)
    else if textTruthy m then
      match sendTextErr with
      | none => ([⟨200, .text "OK"⟩], [textPrompt])
      | some e => ([⟨500, .jsonError e⟩], [])
    else
      ([⟨400, .text "Bad Request: Unknown message type"⟩], [])

end BotMjs

/-! ### The part_000 photo pipeline (src/unnamed/part_000 l.30-177)

This variant performs the structured send inside `analyzeImage` itself
(`bot.sendMessage(chatId, markdown, { parse_mode: 'Markdown' })`) and
classifies every error by substring, twice: once in `analyzeImage`'s
catch block (which rethrows a rewritten message) and once in
`handlePhoto`'s catch block (which picks the user reply and hosts the
plain-text fallback for Telegram "can't parse entities" rejections).
Note that part_000 calls `sanitizeMarkdown` without defining or
importing it; the model uses the sibling definition from part_001
(l.26-33), the evident intent — the conclusions below do not depend on
what the sanitizer returns.  The size check sits inside the download
try/catch, whose catch wraps every error as a download failure. -/

/-- The outcome of `generateContent` in part_000, which also checks the
`response.text` accessor. -/
inductive Vision0 where
  | ok (text : String)
  | noResponse
  | noText
  | thrown (msg : String)

/-- What one part_000 `handlePhoto` run sent, in order. -/
structure Photo0Out where
  messages : List String
  deriving Repr, DecidableEq

namespace Part000

/-- The catch block of part_000's `analyzeImage` (l.83-98): classify the
error text and rethrow a fixed message (or a wrapped one). -/
def classifyAnalyzeError (m : String) : String :=
  if includesStr "SAFETY" m || includesStr "blocked due to safety" m then
    "The image content could not be analyzed due to safety concerns. Please try a different image."
  else if includesStr "rate limit" m then
    "Gemini API rate limit exceeded. Please try again later."
  else if includesStr "network" m then
    "Network error occurred while connecting to Gemini API. Please check your internet connection."
  else if includesStr "can't parse entities" m then
    "There was an issue formatting the analysis. Ill try to send it without special formatting."
  else
    "Failed to analyze image with Gemini API: " ++ m

/-- `analyzeImage` (part_000 l.30-99): call Gemini, check the response
envelope and its text, sanitize, and send under `parse_mode: 'Markdown'`;
every error lands in the catch block above and is rethrown classified.
`structuredSendErr` gives the outcome of that send for a given text
(`none` = delivered). -/
def analyzeImage (vision : Vision0) (structuredSendErr : String → Option String) :
    List String × Except String Unit :=
  match vision with
  | .thrown m => ([], .error (classifyAnalyzeError m))
  | .noResponse =>
      ([], .error (classifyAnalyzeError "No response received from Gemini API"))
  | .noText =>
      ([], .error (classifyAnalyzeError "No text content in Gemini API response"))
  | .ok t =>
    let markdown := sanitizeMarkdown t
    match structuredSendErr markdown with
    | none => ([markdown], .ok ())
    | some e => ([], .error (classifyAnalyzeError e))

/-- `plainText = error.message.replace(/(\*|_|`)/g, '')` (part_000
l.159): strip the three formatting marker characters — from the error
message, not from the analysis. -/
def stripMdMarkers (s : String) : String :=
  String.mk (s.data.filter
    (fun c => ¬ (c = '*' ∨ c = '_' ∨ c = backtickChar)))

/-- The catch block of part_000's `handlePhoto` (l.139-175): classify
the caught error by substring and send the chosen reply (or, in the
"can't parse entities" branch, attempt the two-message plain-text
fallback; `plainSendFails` tells whether that inner try throws). -/
def photoCatch (e : String) (plainSendFails : Bool) : List String :=
  if includesStr "safety concerns" e then
    ["I'm sorry, but I couldn't analyze this image due to potential safety concerns. Could you please try sending a different image?"]
  else if includesStr "rate limit" e then
    ["I'm currently experiencing high demand. Please try again in a few minutes."]
  else if includesStr "network" e then
    ["I'm having trouble connecting to my image analysis service. Please try again later."]
  else if includesStr "Failed to get file link" e then
    ["I had trouble accessing the image you sent. Could you try uploading it again?"]
  else if includesStr "Failed to download image" e then
    ["I couldn't download the image you sent. There might be an issue with the file. Could you try sending a different image?"]
  else if includesStr "exceeds the maximum allowed size" e then
    ["The image you sent is too large for me to process. Please try sending a smaller image (under 4MB)."]
  else if includesStr "can't parse entities" e then
    if plainSendFails then
      ["I analyzed your image but had trouble sending the full response. Here's a summary: The image was successfully processed, but I couldn't display the full analysis due to a technical issue."]
    else
      ["I analyzed your image, but had trouble formatting the response. Here's the analysis without special formatting:",
       stripMdMarkers e]
  else
    ["I encountered an unexpected error while processing your image. Here's what happened: " ++ e]

/-- `handlePhoto` (part_000 l.101-177), after the download delivered
`imageBuffer`: the size check inside the download try/catch (whose
catch wraps the error as a download failure), then `analyzeImage`, with
every escaped error classified by the catch block above. -/
def handlePhoto (imageBuffer : ByteBuf) (vision : Vision0)
    (structuredSendErr : String → Option String) (plainSendFails : Bool) :
    Photo0Out :=
  if imageBuffer.length > MAX_FILE_SIZE then
    ⟨photoCatch
      ("Failed to download image from Telegram: " ++
        "Image size (" ++ toString imageBuffer.length ++
        " bytes) exceeds the maximum allowed size of " ++
        toString MAX_FILE_SIZE ++ " bytes")
      plainSendFails⟩
  else
    let a := analyzeImage vision structuredSendErr
    match a.2 with
    | .ok _ => ⟨a.1⟩
    | .error e => ⟨a.1 ++ photoCatch e plainSendFails⟩

end Part000

end Abc4

/-! ## Theorems -/

namespace Abc4

theorem length_byteToHexChars (b : Byte) : (byteToHexChars b).length = 2 := rfl

theorem length_hexSignature (buf : ByteBuf) :
    (hexSignature buf).length = 2 * (buf.take 4).length := by
  unfold hexSignature
  induction buf.take 4 with
  | nil => rfl
  | cons b bs ih =>
    simp [List.flatMap_cons, ih, length_byteToHexChars]
    omega

theorem hexSignature_short (buf : ByteBuf) (h : buf.length < 4) :
    (hexSignature buf).length < 8 := by
  have ht : (buf.take 4).length = buf.length := by
    simp [List.length_take]
    omega
  rw [length_hexSignature, ht]
  omega

theorem checkImageType_of_short (buf : ByteBuf) (h : buf.length < 4) :
    checkImageType buf = "unknown" := by
  have hlen : (hexSignature buf).length < 8 := hexSignature_short buf h
  have hmk : ∀ t : String, t.data.length = 8 →
      String.mk (hexSignature buf) ≠ t := by
    intro t hts he
    have : (hexSignature buf).length = 8 := by
      have := congrArg (fun s : String => s.data.length) he
      simpa [hts] using this
    omega
  unfold checkImageType
  rw [if_neg (hmk "ffd8ffe0" (by decide)), if_neg (hmk "ffd8ffe1" (by decide)),
    if_neg (hmk "89504e47" (by decide)), if_neg (hmk "47494638" (by decide))]

theorem cacheGet_set_self (cache : Cache) (k v : String) :
    cacheGet (cacheSet cache k v) k = some v := by
  simp [cacheGet, cacheSet, List.find?]

theorem cacheGet_foldl_of_not_mem (puts : List (String × String))
    (acc : Cache) (k : String) (hacc : cacheGet acc k = none)
    (h : ∀ p ∈ puts, p.1 ≠ k) :
    cacheGet (puts.foldl (fun c p => cacheSet c p.1 p.2) acc) k = none := by
  induction puts generalizing acc with
  | nil => simpa using hacc
  | cons p ps ih =>
    simp only [List.foldl_cons]
    refine ih _ ?_ (fun q hq => h q (List.mem_cons_of_mem _ hq))
    have hp : p.1 ≠ k := h p (List.mem_cons_self _ _)
    have hbeq : (p.1 == k) = false := beq_eq_false_iff_ne.mpr hp
    have hstep : cacheGet (cacheSet acc p.1 p.2) k = cacheGet acc k := by
      simp [cacheGet, cacheSet, List.find?, hbeq]
    rw [hstep, hacc]

theorem isPrefixOf_self (l : List Char) : l.isPrefixOf l = true := by
  induction l with
  | nil => rfl
  | cons c t ih => simp [List.isPrefixOf, ih]

/-- A list occurs as a contiguous sublist at the end of any extension. -/
theorem isSubListOf_append_self (s n : List Char) :
    isSubListOf n (s ++ n) = true := by
  induction s with
  | nil =>
    cases n with
    | nil => rfl
    | cons c t => simp [isSubListOf, isPrefixOf_self]
  | cons c s ih => simp [isSubListOf, ih]

/-- The thrown size error always contains the substring the catch block
of part_001 looks for, whatever the interpolated byte count is. -/
theorem oversizedError_includes_marker (n : Nat) :
    includesStr "максимально допустимый размер" (Part001.oversizedError n)
      = true := by
  have hsplit : (" байт) превышает максимально допустимый размер" : String).data
      = " байт) превышает ".data ++ "максимально допустимый размер".data := by
    decide
  unfold includesStr
  have hdata : (Part001.oversizedError n).data
      = ("Размер изображения (".data ++ (toString n).data ++
          " байт) превышает ".data) ++ "максимально допустимый размер".data := by
    simp [Part001.oversizedError, String.data_append, hsplit]
  rw [hdata]
  exact isSubListOf_append_self _ _

theorem photoFailureReply_oversized (n : Nat) :
    Part001.photoFailureReply (Part001.oversizedError n)
      = Part001.oversizedUserReply := by
  unfold Part001.photoFailureReply Part001.oversizedUserReply
  rw [if_pos (oversizedError_includes_marker n)]

theorem photoFailureReply_unsupported :
    Part001.photoFailureReply Part001.unsupportedFormatError
      = Part001.unsupportedFormatUserReply := by
  unfold Part001.photoFailureReply Part001.unsupportedFormatUserReply
  rw [if_neg (by decide), if_pos (by decide)]

theorem hexDigit_inj_on_fin :
    ∀ a b : Fin 16, hexDigit a.val = hexDigit b.val → a = b := by decide

theorem hexDigit_inj (x y : Nat) (hx : x < 16) (hy : y < 16)
    (h : hexDigit x = hexDigit y) : x = y :=
  congrArg Fin.val (hexDigit_inj_on_fin ⟨x, hx⟩ ⟨y, hy⟩ h)

theorem byte_eq_of_hex_eq (a b : Byte)
    (h1 : hexDigit (a.val / 16) = hexDigit (b.val / 16))
    (h2 : hexDigit (a.val % 16) = hexDigit (b.val % 16)) : a = b := by
  have ha := a.isLt
  have hb := b.isLt
  have d1 : a.val / 16 = b.val / 16 :=
    hexDigit_inj _ _ (by omega) (by omega) h1
  have d2 : a.val % 16 = b.val % 16 :=
    hexDigit_inj _ _ (by omega) (by omega) h2
  apply Fin.ext
  omega

/-- The hex signature determines the first four bytes: hex rendering is
injective byte by byte. -/
theorem take4_of_hexSignature_eq (buf : ByteBuf) (b1 b2 b3 b4 : Byte)
    (h : hexSignature buf
      = byteToHexChars b1 ++ (byteToHexChars b2 ++
          (byteToHexChars b3 ++ byteToHexChars b4))) :
    buf.take 4 = [b1, b2, b3, b4] := by
  have hlen8 : (hexSignature buf).length = 8 := by
    rw [h]
    simp [length_byteToHexChars]
  have hlen4 : (buf.take 4).length = 4 := by
    have := length_hexSignature buf
    omega
  obtain ⟨a1, t1, e1⟩ := List.exists_of_length_succ _ hlen4
  have hl1 : t1.length = 3 := by rw [e1] at hlen4; simpa using hlen4
  obtain ⟨a2, t2, e2⟩ := List.exists_of_length_succ _ hl1
  have hl2 : t2.length = 2 := by rw [e2] at hl1; simpa using hl1
  obtain ⟨a3, t3, e3⟩ := List.exists_of_length_succ _ hl2
  have hl3 : t3.length = 1 := by rw [e3] at hl2; simpa using hl2
  obtain ⟨a4, t4, e4⟩ := List.exists_of_length_succ _ hl3
  have hl4 : t4 = [] := by
    rw [e4] at hl3
    simpa using hl3
  have htake : buf.take 4 = [a1, a2, a3, a4] := by
    rw [e1, e2, e3, e4, hl4]
  have hflat : hexSignature buf
      = byteToHexChars a1 ++ (byteToHexChars a2 ++
          (byteToHexChars a3 ++ byteToHexChars a4)) := by
    unfold hexSignature
    rw [htake]
    simp [List.flatMap_cons]
  rw [hflat] at h
  simp only [byteToHexChars, List.cons_append, List.nil_append,
    List.cons.injEq, and_true] at h
  obtain ⟨q1, q2, q3, q4, q5, q6, q7, q8⟩ := h
  rw [htake, byte_eq_of_hex_eq a1 b1 q1 q2, byte_eq_of_hex_eq a2 b2 q3 q4,
    byte_eq_of_hex_eq a3 b3 q5 q6, byte_eq_of_hex_eq a4 b4 q7 q8]

theorem matches_of_signature_eq (buf : ByteBuf) (s : String)
    (b1 b2 b3 b4 : Byte)
    (hs : s.data = byteToHexChars b1 ++ (byteToHexChars b2 ++
      (byteToHexChars b3 ++ byteToHexChars b4)))
    (hmem : [b1, b2, b3, b4] ∈ knownSigBytes)
    (h : String.mk (hexSignature buf) = s) : matchesKnownSignature buf := by
  have hd : hexSignature buf = s.data := by
    have := congrArg String.data h
    simpa using this
  have := take4_of_hexSignature_eq buf b1 b2 b3 b4 (by rw [hd, hs])
  unfold matchesKnownSignature
  rw [this]
  exact hmem

theorem checkImageType_unknown_of_not_match (buf : ByteBuf)
    (h : ¬ matchesKnownSignature buf) : checkImageType buf = "unknown" := by
  unfold checkImageType
  rw [if_neg, if_neg, if_neg, if_neg]
  · intro hc
    exact h (matches_of_signature_eq buf _ 0x47 0x49 0x46 0x38 (by decide)
      (by decide) hc)
  · intro hc
    exact h (matches_of_signature_eq buf _ 0x89 0x50 0x4e 0x47 (by decide)
      (by decide) hc)
  · intro hc
    exact h (matches_of_signature_eq buf _ 0xff 0xd8 0xff 0xe1 (by decide)
      (by decide) hc)
  · intro hc
    exact h (matches_of_signature_eq buf _ 0xff 0xd8 0xff 0xe0 (by decide)
      (by decide) hc)

/-- A buffer that starts `FF D8 FF E0` is classified `image/jpeg`. -/
theorem checkImageType_jpeg (rest : ByteBuf) :
    checkImageType (0xff :: 0xd8 :: 0xff :: 0xe0 :: rest) = "image/jpeg" := by
  have hhex : hexSignature (0xff :: 0xd8 :: 0xff :: 0xe0 :: rest)
      = ("ffd8ffe0" : String).data := by
    unfold hexSignature
    rw [List.take_succ_cons, List.take_succ_cons, List.take_succ_cons,
      List.take_succ_cons, List.take_zero]
    decide
  unfold checkImageType
  rw [hhex, if_pos (by decide)]

end Abc4

/-- Claim C10: `checkImageType` is total on all buffers, including those
shorter than four bytes: the hex prefix read is then shorter than eight
hex digits, matches no signature, and the function returns `'unknown'`
rather than failing or reading out of bounds. -/
theorem c10_checkImageType_total_on_short_buffers (buf : Abc4.ByteBuf)
    (h : buf.length < 4) : Abc4.checkImageType buf = "unknown" :=
  Abc4.checkImageType_of_short buf h

/-- Witness for C10 at the two-byte buffer `FF D8`. -/
theorem c10_checkImageType_total_on_short_buffers_witness :
    ([(0xff : Abc4.Byte), 0xd8] : Abc4.ByteBuf).length < 4 ∧
      Abc4.checkImageType [(0xff : Abc4.Byte), 0xd8] = "unknown" :=
  ⟨by decide, c10_checkImageType_total_on_short_buffers _ (by decide)⟩

/-- Claim C6: Analysis Cache round-trip — `put(k, v)` immediately
followed by `get(k)` returns `v`, and `get` on a key never put returns
absent. -/
theorem c6_cache_round_trip :
    (∀ (cache : Abc4.Cache) (k v : String),
      Abc4.cacheGet (Abc4.cacheSet cache k v) k = some v) ∧
    (∀ (puts : List (String × String)) (k : String),
      (∀ p ∈ puts, p.1 ≠ k) → Abc4.cacheGet (Abc4.cacheOfPuts puts) k = none) :=
  ⟨Abc4.cacheGet_set_self,
   fun puts k h => Abc4.cacheGet_foldl_of_not_mem puts Abc4.emptyCache k rfl h⟩

/-- Witness for C6: a put on `"k"` is read back, and a fresh key misses. -/
theorem c6_cache_round_trip_witness :
    Abc4.cacheGet (Abc4.cacheSet Abc4.emptyCache "k" "v") "k" = some "v" ∧
      Abc4.cacheGet (Abc4.cacheOfPuts [("k", "v")]) "other" = none :=
  ⟨c6_cache_round_trip.1 Abc4.emptyCache "k" "v",
   c6_cache_round_trip.2 [("k", "v")] "other" (by decide)⟩

/-- Claim C1: every image rejected by validation — oversized, or with an
unrecognized four-byte signature — makes the part_001 pipeline fail with
the corresponding user-facing error, performs no `generateContent` call,
and neither consults nor populates the analysis cache. -/
theorem c1_rejected_input_no_vision_no_cache
    (hash : Abc4.ByteBuf → String)
    (vision : Abc4.ByteBuf → Abc4.VisionOutcome)
    (cache : Abc4.Cache) (buf : Abc4.ByteBuf) :
    (buf.length > Abc4.MAX_FILE_SIZE →
      Abc4.Part001.handlePhoto hash vision cache buf =
        ⟨[Abc4.Part001.oversizedUserReply], cache, 0, 0⟩) ∧
    (buf.length ≤ Abc4.MAX_FILE_SIZE → Abc4.checkImageType buf = "unknown" →
      Abc4.Part001.handlePhoto hash vision cache buf =
        ⟨[Abc4.Part001.unsupportedFormatUserReply], cache, 0, 0⟩) := by
  constructor
  · intro hbig
    unfold Abc4.Part001.handlePhoto
    rw [if_pos hbig, Abc4.photoFailureReply_oversized]
  · intro hsize hunknown
    unfold Abc4.Part001.handlePhoto
    rw [if_neg (by omega), if_pos hunknown, Abc4.photoFailureReply_unsupported]

/-- Witness for C1: a 4 MiB + 1 zero buffer is rejected as oversized with
no vision call, and the empty buffer is rejected as unknown-format with
no vision call. -/
theorem c1_rejected_input_no_vision_no_cache_witness :
    Abc4.Part001.handlePhoto (fun _ => "h") (fun _ => .ok "t")
        Abc4.emptyCache (List.replicate 4194305 (0 : Abc4.Byte)) =
      ⟨[Abc4.Part001.oversizedUserReply], Abc4.emptyCache, 0, 0⟩ ∧
    Abc4.Part001.handlePhoto (fun _ => "h") (fun _ => .ok "t")
        Abc4.emptyCache [] =
      ⟨[Abc4.Part001.unsupportedFormatUserReply], Abc4.emptyCache, 0, 0⟩ := by
  constructor
  · exact (c1_rejected_input_no_vision_no_cache _ _ _ _).1
      (by rw [List.length_replicate]; decide)
  · exact (c1_rejected_input_no_vision_no_cache _ _ _ _).2
      (by decide) (by decide)

/-- Claim C2 counterexample: a buffer that is both oversized and of
unknown signature (4 MiB + 1 zero bytes) makes the pipeline fail with
the oversize message, not the unsupported-format message the claim
promises for every unrecognized signature. -/
theorem c2_counterexample_oversized_unknown_signature :
    ¬ Abc4.matchesKnownSignature (List.replicate 4194305 (0 : Abc4.Byte)) ∧
    Abc4.Part001.handlePhoto (fun _ => "h") (fun _ => .ok "t")
        Abc4.emptyCache (List.replicate 4194305 (0 : Abc4.Byte)) =
      ⟨[Abc4.Part001.oversizedUserReply], Abc4.emptyCache, 0, 0⟩ ∧
    Abc4.Part001.oversizedUserReply ≠ Abc4.Part001.unsupportedFormatUserReply := by
  refine ⟨?_, ?_, by decide⟩
  · unfold Abc4.matchesKnownSignature
    rw [List.take_replicate]
    decide
  · unfold Abc4.Part001.handlePhoto
    rw [if_pos (by rw [List.length_replicate]; decide),
      Abc4.photoFailureReply_oversized]

/-- Claim C2 (amended): `checkImageType` classifies by the first four
bytes against the fixed table; a buffer matching no signature is
classified `unknown`, and — provided it is within the size ceiling,
which is checked first — the pipeline fails with the unsupported-format
error, no vision call and no cache access; a buffer beginning
`FF D8 FF E0` is classified `image/jpeg` and (within the ceiling, on a
fresh hash) proceeds to the Vision Client. -/
theorem c2_format_detector_classification
    (hash : Abc4.ByteBuf → String) (vision : Abc4.ByteBuf → Abc4.VisionOutcome)
    (cache : Abc4.Cache) (buf rest : Abc4.ByteBuf) :
    (¬ Abc4.matchesKnownSignature buf → Abc4.checkImageType buf = "unknown") ∧
    (¬ Abc4.matchesKnownSignature buf → buf.length ≤ Abc4.MAX_FILE_SIZE →
      Abc4.Part001.handlePhoto hash vision cache buf =
        ⟨[Abc4.Part001.unsupportedFormatUserReply], cache, 0, 0⟩) ∧
    (Abc4.checkImageType (0xff :: 0xd8 :: 0xff :: 0xe0 :: rest) = "image/jpeg") ∧
    ((0xff :: 0xd8 :: 0xff :: 0xe0 :: rest : Abc4.ByteBuf).length ≤ Abc4.MAX_FILE_SIZE →
      Abc4.cacheGet cache (hash (0xff :: 0xd8 :: 0xff :: 0xe0 :: rest)) = none →
      (Abc4.Part001.handlePhoto hash vision cache
        (0xff :: 0xd8 :: 0xff :: 0xe0 :: rest)).visionCalls = 1) := by
  refine ⟨Abc4.checkImageType_unknown_of_not_match buf, ?_, Abc4.checkImageType_jpeg rest, ?_⟩
  · intro hnm hsize
    unfold Abc4.Part001.handlePhoto
    rw [if_neg (by omega),
      if_pos (Abc4.checkImageType_unknown_of_not_match buf hnm),
      Abc4.photoFailureReply_unsupported]
  · intro hsize hmiss
    unfold Abc4.Part001.handlePhoto
    rw [if_neg (by omega)]
    rw [if_neg (by rw [Abc4.checkImageType_jpeg rest]; decide)]
    unfold Abc4.Part001.analyzeImage
    simp only [hmiss]
    cases vision (0xff :: 0xd8 :: 0xff :: 0xe0 :: rest) <;> rfl

/-- Witness for C2: a garbage 4-byte buffer is rejected as unsupported
with no vision call, and a fresh `FF D8 FF E0` buffer reaches the Vision
Client exactly once. -/
theorem c2_format_detector_classification_witness :
    Abc4.checkImageType [(0x00 : Abc4.Byte), 0x01, 0x02, 0x03] = "unknown" ∧
    Abc4.Part001.handlePhoto (fun _ => "h") (fun _ => .ok "t") Abc4.emptyCache
        [(0x00 : Abc4.Byte), 0x01, 0x02, 0x03] =
      ⟨[Abc4.Part001.unsupportedFormatUserReply], Abc4.emptyCache, 0, 0⟩ ∧
    Abc4.checkImageType [(0xff : Abc4.Byte), 0xd8, 0xff, 0xe0] = "image/jpeg" ∧
    (Abc4.Part001.handlePhoto (fun _ => "h") (fun _ => .ok "t") Abc4.emptyCache
        [(0xff : Abc4.Byte), 0xd8, 0xff, 0xe0]).visionCalls = 1 :=
  ⟨(c2_format_detector_classification (fun _ => "h") (fun _ => .ok "t")
      Abc4.emptyCache [(0x00 : Abc4.Byte), 0x01, 0x02, 0x03] []).1 (by decide),
   (c2_format_detector_classification (fun _ => "h") (fun _ => .ok "t")
      Abc4.emptyCache [(0x00 : Abc4.Byte), 0x01, 0x02, 0x03] []).2.1
      (by decide) (by decide),
   (c2_format_detector_classification (fun _ => "h") (fun _ => .ok "t")
      Abc4.emptyCache [] []).2.2.1,
   (c2_format_detector_classification (fun _ => "h") (fun _ => .ok "t")
      Abc4.emptyCache [] []).2.2.2 (by decide) rfl⟩

/-- Claim C5 (code bug in the cited part_003 variant): at a fixed
validated JPEG buffer submitted twice from a fresh cache, the part_001
pipeline shows exactly the claimed behaviour — one `generateContent`
call in the first run, the second run answered from the cache with the
same sanitized messages and zero further calls — while the second
part_003 variant's `analyzeImage`, which throws
`ReferenceError: HarmCategory is not defined` inside its try on every
cache miss, makes zero vision calls in both runs, leaves the cache
empty, and fails both submissions instead of serving the second from
the cache. -/
theorem c5_second_submission_from_cache_evidence :
    (Abc4.Part001.handlePhoto (fun _ => "h") (fun _ => .ok "text")
      Abc4.emptyCache [(0xff : Abc4.Byte), 0xd8, 0xff, 0xe0]).visionCalls = 1 ∧
    (Abc4.Part001.handlePhoto (fun _ => "h") (fun _ => .ok "text")
        Abc4.emptyCache [(0xff : Abc4.Byte), 0xd8, 0xff, 0xe0]).messages =
      [Abc4.Part001.processingNotice, Abc4.sanitizeMarkdown "text"] ∧
    (Abc4.Part001.handlePhoto (fun _ => "h") (fun _ => .ok "text")
        (Abc4.Part001.handlePhoto (fun _ => "h") (fun _ => .ok "text")
          Abc4.emptyCache [(0xff : Abc4.Byte), 0xd8, 0xff, 0xe0]).cache
        [(0xff : Abc4.Byte), 0xd8, 0xff, 0xe0]).visionCalls = 0 ∧
    (Abc4.Part001.handlePhoto (fun _ => "h") (fun _ => .ok "text")
        (Abc4.Part001.handlePhoto (fun _ => "h") (fun _ => .ok "text")
          Abc4.emptyCache [(0xff : Abc4.Byte), 0xd8, 0xff, 0xe0]).cache
        [(0xff : Abc4.Byte), 0xd8, 0xff, 0xe0]).messages =
      (Abc4.Part001.handlePhoto (fun _ => "h") (fun _ => .ok "text")
        Abc4.emptyCache [(0xff : Abc4.Byte), 0xd8, 0xff, 0xe0]).messages ∧
    Abc4.Part003B.analyzeImage (fun _ => "h") Abc4.emptyCache
        [(0xff : Abc4.Byte), 0xd8, 0xff, 0xe0] =
      ⟨.error ("Не удалось проанализировать изображение: " ++
          "HarmCategory is not defined"), Abc4.emptyCache, 1, 0⟩ ∧
    Abc4.Part003B.analyzeImage (fun _ => "h")
        (Abc4.Part003B.analyzeImage (fun _ => "h") Abc4.emptyCache
          [(0xff : Abc4.Byte), 0xd8, 0xff, 0xe0]).cache
        [(0xff : Abc4.Byte), 0xd8, 0xff, 0xe0] =
      ⟨.error ("Не удалось проанализировать изображение: " ++
          "HarmCategory is not defined"), Abc4.emptyCache, 1, 0⟩ :=
  ⟨rfl, rfl, rfl, rfl, rfl, rfl⟩

namespace Abc4

theorem charReplace_eq_self (c : Char) (rep : List Char) (l : List Char)
    (h : ∀ x ∈ l, x ≠ c) : charReplace c rep l = l := by
  induction l with
  | nil => rfl
  | cons a t ih =>
    have ha : a ≠ c := h a (List.mem_cons_self a t)
    have ht := ih (fun x hx => h x (List.mem_cons_of_mem a hx))
    unfold charReplace at ht ⊢
    rw [List.flatMap_cons, if_neg ha, ht]
    rfl

theorem charReplace_replicate_a (c : Char) (rep : List Char) (n : Nat)
    (h : c ≠ 'a') : charReplace c rep (List.replicate n 'a') = List.replicate n 'a' :=
  charReplace_eq_self c rep _ (fun x hx => by
    rw [List.eq_of_mem_replicate hx]
    exact fun he => h he.symm)

theorem isPrefixOf_ne_replicate (c : Char) (cs : List Char) (n : Nat)
    (h : c ≠ 'a') : (c :: cs).isPrefixOf (List.replicate n 'a') = false := by
  cases n with
  | zero => rfl
  | succ m =>
    rw [List.replicate_succ]
    simp [List.isPrefixOf, h]

theorem pairPassGo_replicate_a (d : Char) (ds pre post : List Char)
    (hd : d ≠ 'a') (fuel : Nat) :
    ∀ n, pairPassGo d ds pre post fuel (List.replicate n 'a')
      = List.replicate n 'a' := by
  induction fuel with
  | zero =>
    intro n
    cases n <;> rfl
  | succ f ih =>
    intro n
    cases n with
    | zero => rfl
    | succ m =>
      rw [List.replicate_succ]
      unfold pairPassGo
      have hp : (d :: ds).isPrefixOf ('a' :: List.replicate m 'a') = false := by
        rw [← List.replicate_succ]
        exact isPrefixOf_ne_replicate d ds (m + 1) hd
      rw [if_neg (by simp [hp]), ih m]

theorem pairPass_replicate_a (d : Char) (ds pre post : List Char)
    (hd : d ≠ 'a') (n : Nat) :
    pairPass d ds pre post (List.replicate n 'a') = List.replicate n 'a' :=
  pairPassGo_replicate_a d ds pre post hd _ n

theorem linkPassGo_replicate_a (fuel : Nat) :
    ∀ n, linkPassGo fuel (List.replicate n 'a') = List.replicate n 'a' := by
  induction fuel with
  | zero =>
    intro n
    cases n <;> rfl
  | succ f ih =>
    intro n
    cases n with
    | zero => rfl
    | succ m =>
      rw [List.replicate_succ]
      unfold linkPassGo
      rw [if_neg (by decide)]
      rw [ih m]

theorem linkPass_replicate_a (n : Nat) :
    linkPass (List.replicate n 'a') = List.replicate n 'a' :=
  linkPassGo_replicate_a _ n

theorem tryBullet_cons_a (l : List Char) : tryBullet ('a' :: l) = none := by
  unfold tryBullet
  rw [if_neg (by decide), if_neg (by decide)]

theorem listPassGo_replicate_a (fuel : Nat) (n : Nat) :
    listPassGo fuel (List.replicate n 'a') = List.replicate n 'a' := by
  cases fuel with
  | zero => cases n <;> rfl
  | succ f =>
    cases n with
    | zero => rfl
    | succ m =>
      rw [List.replicate_succ]
      unfold listPassGo
      rw [tryBullet_cons_a]
      have htake : ('a' :: List.replicate m 'a').takeWhile (fun x => x ≠ '\n')
          = 'a' :: List.replicate m 'a' := by
        rw [List.takeWhile_cons_of_pos (by decide)]
        simp [List.takeWhile_replicate]
      have hdrop : ('a' :: List.replicate m 'a').dropWhile (fun x => x ≠ '\n')
          = [] := by
        rw [List.dropWhile_cons_of_pos (by decide)]
        simp [List.dropWhile_replicate]
      rw [htake, hdrop]
      simp

theorem listPass_replicate_a (n : Nat) :
    listPass (List.replicate n 'a') = List.replicate n 'a' :=
  listPassGo_replicate_a _ n

theorem splitLines_replicate_a (n : Nat) :
    splitLines (List.replicate n 'a') = [List.replicate n 'a'] := by
  induction n with
  | zero => rfl
  | succ m ih =>
    rw [List.replicate_succ]
    unfold splitLines
    rw [if_neg (by decide)]
    rw [ih]

theorem headerPass_replicate_a (c : Char) (cs : List Char) (n : Nat)
    (h : c ≠ 'a') :
    headerPass (c :: cs) (List.replicate n 'a') = List.replicate n 'a' := by
  unfold headerPass
  rw [splitLines_replicate_a]
  unfold headerLine
  rw [List.map_singleton, if_neg (by simp [isPrefixOf_ne_replicate c cs n h])]
  rfl

theorem markdownToTelegramHTML_replicate_a (n : Nat) :
    markdownToTelegramHTML (String.mk (List.replicate n 'a'))
      = String.mk (List.replicate n 'a') := by
  unfold markdownToTelegramHTML
  have h3 : ("### " : String).data = '#' :: "## ".data := by decide
  have h2 : ("## " : String).data = '#' :: "# ".data := by decide
  have h1 : ("# " : String).data = '#' :: " ".data := by decide
  show String.mk _ = _
  rw [show (String.mk (List.replicate n 'a')).data = List.replicate n 'a' from rfl,
    h3, h2, h1,
    headerPass_replicate_a '#' _ n (by decide),
    headerPass_replicate_a '#' _ n (by decide),
    headerPass_replicate_a '#' _ n (by decide),
    pairPass_replicate_a '*' _ _ _ (by decide) n,
    pairPass_replicate_a '*' _ _ _ (by decide) n,
    listPass_replicate_a n,
    linkPass_replicate_a n,
    pairPass_replicate_a backtickChar _ _ _ (by decide) n]

theorem sanitizeTelegramBody_replicate_a (n : Nat) :
    sanitizeTelegramBody (List.replicate n 'a') = List.replicate n 'a' := by
  unfold sanitizeTelegramBody
  dsimp only
  rw [charReplace_replicate_a '&' _ n (by decide),
    charReplace_replicate_a '<' _ n (by decide),
    charReplace_replicate_a '>' _ n (by decide),
    pairPass_replicate_a '*' _ _ _ (by decide) n,
    pairPass_replicate_a '_' _ _ _ (by decide) n,
    pairPass_replicate_a '*' _ _ _ (by decide) n,
    pairPass_replicate_a backtickChar _ _ _ (by decide) n,
    linkPass_replicate_a n]

theorem foldl_charReplace_id (cs : List Char) (l : List Char)
    (hl : ∀ x ∈ l, x = 'a') (hcs : 'a' ∉ cs) :
    cs.foldl (fun acc c => charReplace c ['\\', c] acc) l = l := by
  induction cs with
  | nil => rfl
  | cons c cs ih =>
    have hc : c ≠ 'a' := by
      intro he
      exact hcs (he ▸ List.mem_cons_self c cs)
    rw [List.foldl_cons,
      charReplace_eq_self c _ l (fun x hx => by
        rw [hl x hx]
        exact fun he => hc he.symm)]
    exact ih (fun hm => hcs (List.mem_cons_of_mem c hm))

theorem escapeMarkdownAll_replicate_a (n : Nat) :
    escapeMarkdownAll (List.replicate n 'a') = List.replicate n 'a' :=
  foldl_charReplace_id escapeChars _
    (fun x hx => List.eq_of_mem_replicate hx) (by decide)

theorem sanitizeMarkdown_length_le (t : String) :
    (sanitizeMarkdown t).length ≤ 4000 := by
  unfold sanitizeMarkdown
  dsimp only
  rw [String.length_mk]
  split
  · simp only [List.length_append, List.length_take, List.length_cons,
      List.length_nil]
    omega
  · omega

theorem sanitizeMarkdown_ellipsis (t : String)
    (h : (escapeMarkdownAll t.data).length > 4000) :
    ("..." : String).data <:+ (sanitizeMarkdown t).data := by
  unfold sanitizeMarkdown
  dsimp only
  rw [if_pos h]
  exact ⟨(escapeMarkdownAll t.data).take 3997, rfl⟩

theorem sanitizeTelegramFormatting_length_le (t : String) :
    (sanitizeTelegramFormatting t).length ≤ 4096 := by
  unfold sanitizeTelegramFormatting
  dsimp only
  rw [String.length_mk]
  split
  · simp only [List.length_append, List.length_take, List.length_cons,
      List.length_nil]
    omega
  · omega

theorem sanitizeTelegramFormatting_ellipsis (t : String)
    (h : (sanitizeTelegramBody t.data).length > 4096) :
    ("..." : String).data <:+ (sanitizeTelegramFormatting t).data := by
  unfold sanitizeTelegramFormatting
  dsimp only
  rw [if_pos h]
  exact ⟨(sanitizeTelegramBody t.data).take 4093, rfl⟩

end Abc4

/-- Claim C3 counterexample: neither convert-mode implementation is
idempotent.  `sanitizeTelegramFormatting` re-escapes the ampersand it
already escaped, and `markdownToTelegramHTML` re-processes the link
syntax left in its own output. -/
theorem c3_counterexample_convert_mode_not_idempotent :
    Abc4.sanitizeTelegramFormatting (Abc4.sanitizeTelegramFormatting "&") ≠
      Abc4.sanitizeTelegramFormatting "&" ∧
    Abc4.markdownToTelegramHTML (Abc4.markdownToTelegramHTML "[[a](b)x](y)") ≠
      Abc4.markdownToTelegramHTML "[[a](b)x](y)" :=
  ⟨by decide, by decide⟩

/-- Claim C3 (amended): convert-mode sanitization is not idempotent in
either implementation.  `sanitizeTelegramFormatting` maps `&` to
`&amp;` but maps `&amp;` to `&amp;amp;`, so re-applying it re-escapes
its own output; `markdownToTelegramHTML` turns `[[a](b)x](y)` into
`<a href="b">[a</a>x](y)`, in which a second application matches the
surviving `[a</a>x](y)` as another link. -/
theorem c3_convert_mode_reapplication_changes_output :
    Abc4.sanitizeTelegramFormatting "&" = "&amp;" ∧
    Abc4.sanitizeTelegramFormatting "&amp;" = "&amp;amp;" ∧
    Abc4.markdownToTelegramHTML "[[a](b)x](y)" = "<a href=\"b\">[a</a>x](y)" ∧
    Abc4.markdownToTelegramHTML "<a href=\"b\">[a</a>x](y)" =
      "<a href=\"b\"><a href=\"y\">a</a>x</a>" :=
  ⟨by decide, by decide, by decide, by decide⟩

/-- Claim C4 counterexample: `markdownToTelegramHTML` performs no
truncation at all — on 4097 letters it returns 4097 characters, above
the 4096 platform ceiling (and above the 4000 cap the escape-mode
sanitizer uses). -/
theorem c4_counterexample_convert_mode_unbounded :
    (Abc4.markdownToTelegramHTML (String.mk (List.replicate 4097 'a'))).length
      = 4097 ∧
    4096 < (Abc4.markdownToTelegramHTML
      (String.mk (List.replicate 4097 'a'))).length := by
  have h := Abc4.markdownToTelegramHTML_replicate_a 4097
  rw [h, String.length_mk, List.length_replicate]
  exact ⟨rfl, by omega⟩

/-- Claim C4 (amended): the two truncating sanitizers bound their output
— `sanitizeMarkdown` to 4000 characters and `sanitizeTelegramFormatting`
to 4096, each ending in `'...'` whenever its pre-truncation result
exceeded the bound — but `markdownToTelegramHTML` has no truncation, as
the counterexample shows. -/
theorem c4_sanitizer_output_bounds :
    (∀ t : String, (Abc4.sanitizeMarkdown t).length ≤ 4000 ∧
      ((Abc4.escapeMarkdownAll t.data).length > 4000 →
        ("..." : String).data <:+ (Abc4.sanitizeMarkdown t).data)) ∧
    (∀ t : String, (Abc4.sanitizeTelegramFormatting t).length ≤ 4096 ∧
      ((Abc4.sanitizeTelegramBody t.data).length > 4096 →
        ("..." : String).data <:+ (Abc4.sanitizeTelegramFormatting t).data)) ∧
    (Abc4.markdownToTelegramHTML (String.mk (List.replicate 4097 'a'))).length
      = 4097 :=
  ⟨fun t => ⟨Abc4.sanitizeMarkdown_length_le t, Abc4.sanitizeMarkdown_ellipsis t⟩,
   fun t => ⟨Abc4.sanitizeTelegramFormatting_length_le t,
     Abc4.sanitizeTelegramFormatting_ellipsis t⟩,
   by rw [Abc4.markdownToTelegramHTML_replicate_a 4097, String.length_mk,
        List.length_replicate]⟩

/-- Witness for C4: on 4001 letters the escape-mode pre-truncation
result exceeds 4000, and the returned string is 4000 characters long and
ends in `'...'`; on 4097 letters `sanitizeTelegramFormatting` truncates
to 4096 ending in `'...'`. -/
theorem c4_sanitizer_output_bounds_witness :
    (Abc4.sanitizeMarkdown (String.mk (List.replicate 4001 'a'))).length ≤ 4000 ∧
    ("..." : String).data <:+
      (Abc4.sanitizeMarkdown (String.mk (List.replicate 4001 'a'))).data ∧
    (Abc4.sanitizeTelegramFormatting (String.mk (List.replicate 4097 'a'))).length ≤ 4096 ∧
    ("..." : String).data <:+
      (Abc4.sanitizeTelegramFormatting (String.mk (List.replicate 4097 'a'))).data := by
  have hm := c4_sanitizer_output_bounds.1 (String.mk (List.replicate 4001 'a'))
  have ht := c4_sanitizer_output_bounds.2.1 (String.mk (List.replicate 4097 'a'))
  refine ⟨hm.1, hm.2 ?_, ht.1, ht.2 ?_⟩
  · rw [show (String.mk (List.replicate 4001 'a')).data
        = List.replicate 4001 'a' from rfl,
      Abc4.escapeMarkdownAll_replicate_a, List.length_replicate]
    omega
  · rw [show (String.mk (List.replicate 4097 'a')).data
        = List.replicate 4097 'a' from rfl,
      Abc4.sanitizeTelegramBody_replicate_a, List.length_replicate]
    omega

/-- Claim C7: an inbound update whose shape is not recognized — no
`message`, or a message with neither photo, nor document, nor text —
gets HTTP 400 and no outbound message. -/
theorem c7_unknown_shape_400_no_side_effects
    (photoAct docAct : Abc4.TgMessage → Abc4.Act) (sendTextErr : Option String)
    (body : Abc4.ReqBody)
    (h : body.message = none ∨ ∃ m, body.message = some m ∧
      m.photo = none ∧ m.document = none ∧ m.text = none) :
    Abc4.BotMjs.handler photoAct docAct sendTextErr body =
      ([⟨400, .text "Bad Request: Unknown message type"⟩], []) := by
  rcases h with h | ⟨m, hm, hp, hd, ht⟩
  · unfold Abc4.BotMjs.handler
    rw [h]
  · unfold Abc4.BotMjs.handler
    rw [hm]
    simp only [hp, hd, Option.isSome_none, Bool.false_eq_true, if_false]
    rw [if_neg (by simp [Abc4.BotMjs.textTruthy, ht])]

/-- Witness for C7 at the empty body and at an empty message. -/
theorem c7_unknown_shape_400_no_side_effects_witness :
    Abc4.BotMjs.handler (fun _ => ⟨[], none⟩) (fun _ => ⟨[], none⟩) none
        ⟨none⟩ =
      ([⟨400, .text "Bad Request: Unknown message type"⟩], []) ∧
    Abc4.BotMjs.handler (fun _ => ⟨[], none⟩) (fun _ => ⟨[], none⟩) none
        ⟨some ⟨none, none, none, 7⟩⟩ =
      ([⟨400, .text "Bad Request: Unknown message type"⟩], []) :=
  ⟨c7_unknown_shape_400_no_side_effects _ _ _ _ (Or.inl rfl),
   c7_unknown_shape_400_no_side_effects _ _ _ _
     (Or.inr ⟨⟨none, none, none, 7⟩, rfl, rfl, rfl, rfl⟩)⟩

/-- Claim C9: the bot.mjs webhook handler writes exactly one HTTP
response — 200, 400, or 500 with a JSON error body — on every control
path of its sequential flow, including when an inner handler or the
outbound reply of the text branch throws. -/
theorem c9_exactly_one_response
    (photoAct docAct : Abc4.TgMessage → Abc4.Act) (sendTextErr : Option String)
    (body : Abc4.ReqBody) :
    ∃ r : Abc4.HttpResp,
      (Abc4.BotMjs.handler photoAct docAct sendTextErr body).1 = [r] ∧
      (r.status = 200 ∨ r.status = 400 ∨
        (r.status = 500 ∧ ∃ e, r.body = .jsonError e)) := by
  unfold Abc4.BotMjs.handler
  cases hm : body.message with
  | none => exact ⟨_, rfl, Or.inr (Or.inl rfl)⟩
  | some m =>
    dsimp only
    by_cases hp : m.photo.isSome
    · rw [if_pos hp]
      cases (photoAct m).thrown with
      | none => exact ⟨_, rfl, Or.inl rfl⟩
      | some e => exact ⟨_, rfl, Or.inr (Or.inr ⟨rfl, e, rfl⟩)⟩
    · rw [if_neg hp]
      by_cases hd : m.document.isSome
      · rw [if_pos hd]
        cases (docAct m).thrown with
        | none => exact ⟨_, rfl, Or.inl rfl⟩
        | some e => exact ⟨_, rfl, Or.inr (Or.inr ⟨rfl, e, rfl⟩)⟩
      · rw [if_neg hd]
        by_cases ht : Abc4.BotMjs.textTruthy m = true
        · rw [if_pos ht]
          cases sendTextErr with
          | none => exact ⟨_, rfl, Or.inl rfl⟩
          | some e => exact ⟨_, rfl, Or.inr (Or.inr ⟨rfl, e, rfl⟩)⟩
        · rw [if_neg ht]
          exact ⟨_, rfl, Or.inr (Or.inl rfl)⟩

/-- Claim C8: the plain-text fallback for "can't parse entities"
rejections never delivers the analysis.  When the structured send of the
analysis of `"*analysis*"` is rejected with Telegram's parse error,
`analyzeImage`'s catch block rethrows a rewritten message that
`handlePhoto`'s "can't parse entities" branch does not match, so the
user receives only the generic unexpected-error reply — no plain-text
re-send of the analysis happens.  And even the fallback branch itself,
evaluated on the raw rejection text, sends the marker-stripped error
message, not the analysis. -/
theorem c8_parse_entities_fallback_broken :
    Abc4.Part000.handlePhoto [] (.ok "*analysis*")
        (fun _ => some "ETELEGRAM: 400 Bad Request: can't parse entities")
        false =
      ⟨["I encountered an unexpected error while processing your image. Here's what happened: There was an issue formatting the analysis. Ill try to send it without special formatting."]⟩ ∧
    Abc4.Part000.photoCatch
        "ETELEGRAM: 400 Bad Request: can't parse entities" false =
      ["I analyzed your image, but had trouble formatting the response. Here's the analysis without special formatting:",
       "ETELEGRAM: 400 Bad Request: can't parse entities"] := by
  set_option maxRecDepth 10000 in
  exact ⟨by decide, by decide⟩
